import Mathlib

/-!
Verification of the product-catalog API
(backend under `app/`: models, seed data, service layer, API endpoints).

The data model and the operations that exist in the source are embedded
directly (`Product`, `get_seed_products`, `_PRODUCTS_DATABASE`,
`get_all_products`, `get_products`, `health_check`).  The repository is a
workshop exercise: its Filter Engine and Request Validator are described in
the design document and referenced by the (skipped) test suite, but their
implementation is deliberately absent from the source tree; those two
components are modelled here from the specification text and marked as such.

Monetary amounts (`Decimal` with exactly two fractional digits in the
source) are represented as integer cents.
-/

namespace CatalogApi

/-- A product record, embedding `Product` from `app/models/product.py`.
`product_price_usd` is the price in integer cents (the source stores a
`Decimal` with exactly two fractional digits). -/
structure Product where
  product_id : Nat
  product_name : String
  product_description : String
  product_price_usd : Int
  product_category : String
  product_in_stock : Bool
deriving DecidableEq, Repr

/-- The enumerated category set, from the `ProductCategory` literal type in
`app/models/product.py`. -/
def validProductCategories : List String :=
  ["electronics", "clothing", "home", "sports", "books"]

/-- The 30 seed records of `get_seed_products` in
`app/data/seed_products.py`, in source order. -/
def get_seed_products : List Product := [
  ⟨1, "Wireless Bluetooth Mouse",
    "Ergonomic wireless mouse with 2.4GHz USB receiver and long-lasting battery life",
    2999, "electronics", true⟩,
  ⟨2, "Mechanical Gaming Keyboard",
    "RGB backlit mechanical keyboard with blue switches and programmable macros",
    8999, "electronics", true⟩,
  ⟨3, "USB-C Hub 7-in-1",
    "Multi-port USB-C hub with HDMI, SD card reader, and 100W power delivery",
    4599, "electronics", true⟩,
  ⟨4, "Wireless Earbuds Pro",
    "Active noise cancelling wireless earbuds with 30-hour battery life and charging case",
    14999, "electronics", false⟩,
  ⟨5, "4K Webcam",
    "Ultra HD 4K webcam with autofocus, ring light, and dual microphones",
    11999, "electronics", true⟩,
  ⟨6, "Portable SSD 1TB",
    "Ultra-fast portable solid state drive with USB 3.2 Gen 2 speeds up to 1050MB/s",
    12999, "electronics", true⟩,
  ⟨7, "Smart LED Light Bulb",
    "WiFi-enabled color-changing LED bulb compatible with Alexa and Google Home",
    1999, "electronics", true⟩,
  ⟨8, "Wireless Charger Stand",
    "15W fast wireless charging stand with adjustable viewing angle for smartphones",
    3499, "electronics", true⟩,
  ⟨9, "Classic Cotton T-Shirt",
    "100% organic cotton crew neck t-shirt available in multiple colors",
    2499, "clothing", true⟩,
  ⟨10, "Slim Fit Denim Jeans",
    "Stretch denim jeans with modern slim fit and classic 5-pocket styling",
    5999, "clothing", true⟩,
  ⟨11, "Hooded Zip Sweatshirt",
    "Comfortable fleece-lined hoodie with full zip and kangaroo pockets",
    4499, "clothing", true⟩,
  ⟨12, "Running Jacket Windbreaker",
    "Lightweight water-resistant windbreaker with reflective details for running",
    6999, "clothing", false⟩,
  ⟨13, "Merino Wool Beanie",
    "Soft merino wool winter beanie hat with fold-over cuff design",
    2999, "clothing", true⟩,
  ⟨14, "Canvas Sneakers",
    "Classic low-top canvas sneakers with rubber sole and cushioned insole",
    5499, "clothing", true⟩,
  ⟨15, "Leather Crossbody Bag",
    "Genuine leather crossbody bag with adjustable strap and multiple compartments",
    8999, "clothing", true⟩,
  ⟨16, "Stainless Steel French Press",
    "34oz double-wall insulated French press coffee maker with heat-resistant handle",
    3999, "home", true⟩,
  ⟨17, "Ceramic Non-Stick Frying Pan",
    "10-inch ceramic-coated frying pan with ergonomic handle and even heat distribution",
    4999, "home", true⟩,
  ⟨18, "Memory Foam Pillow Set",
    "Set of 2 bamboo-covered memory foam pillows with adjustable fill for custom comfort",
    7999, "home", true⟩,
  ⟨19, "Smart Robot Vacuum",
    "App-controlled robot vacuum with auto-recharge and scheduled cleaning features",
    29999, "home", false⟩,
  ⟨20, "Bamboo Cutting Board Set",
    "Set of 3 bamboo cutting boards with juice grooves and non-slip feet",
    3499, "home", true⟩,
  ⟨21, "Aromatherapy Essential Oil Diffuser",
    "Ultrasonic essential oil diffuser with 7 LED light colors and auto shut-off",
    2999, "home", true⟩,
  ⟨22, "Weighted Blanket 15lbs",
    "Premium weighted blanket with glass beads and soft breathable cotton cover",
    8999, "home", true⟩,
  ⟨23, "Yoga Mat with Carrying Strap",
    "6mm thick non-slip yoga mat with alignment marks and free carrying strap",
    3999, "sports", true⟩,
  ⟨24, "Adjustable Dumbbell Set",
    "Pair of adjustable dumbbells from 5-52.5 lbs with quick-change dial system",
    49999, "sports", true⟩,
  ⟨25, "Resistance Bands Set",
    "Set of 5 resistance bands with handles, door anchor, and carrying bag",
    2499, "sports", true⟩,
  ⟨26, "Foam Roller for Muscle Recovery",
    "High-density foam roller for deep tissue massage and muscle recovery",
    2999, "sports", true⟩,
  ⟨27, "Sports Water Bottle 32oz",
    "Insulated stainless steel water bottle keeps drinks cold for 24 hours",
    3499, "sports", false⟩,
  ⟨28, "The Pragmatic Programmer",
    "Classic software development book with timeless programming wisdom and best practices",
    4499, "books", true⟩,
  ⟨29, "Atomic Habits",
    "Science-backed strategies for building good habits and breaking bad ones",
    1699, "books", true⟩,
  ⟨30, "The Design of Everyday Things",
    "Foundational book on user-centered design and human-computer interaction",
    2499, "books", true⟩]

/-- The module-level in-memory store of
`app/services/product_service.py`, assigned once at import time. -/
def _PRODUCTS_DATABASE : List Product := get_seed_products

/-- `get_all_products` from `app/services/product_service.py`: returns the
whole store without any filtering (the logging calls are informational side
effects outside the functional contract). -/
def get_all_products : List Product := _PRODUCTS_DATABASE

/-- Response shape `ProductListResponse` from `app/models/product.py`. -/
structure ProductListResponse where
  products : List Product
  total_count : Nat
deriving DecidableEq, Repr

/-- The `get_products` handler from `app/api/products.py`.  The handler
declares no query parameters, so FastAPI drops any parameters supplied with
the request; the embedding makes the raw query pairs explicit to record
that the result does not depend on them. -/
def get_products (_queryParams : List (String × String)) : ProductListResponse :=
  let products := get_all_products
  { products := products, total_count := products.length }

/-- A JSON value appearing in `error_details` of an error body: a number, a
string, or a list of strings. -/
inductive DetailValue where
  | num (value : Int)
  | str (value : String)
  | strList (values : List String)
deriving DecidableEq, Repr

/-- Error body `ErrorResponse` from `app/models/error.py`
(`timestamp_utc` is a wall-clock side effect and is not modelled). -/
structure ErrorResponse where
  error_code : String
  error_message : String
  error_details : List (String × DetailValue)
deriving DecidableEq, Repr

/-- An HTTP-level outcome of a catalog request: a success body with its
status code, or an error body with its status code. -/
inductive HttpResult where
  | ok (status : Nat) (body : ProductListResponse)
  | error (status : Nat) (body : ErrorResponse)
deriving DecidableEq, Repr

/-- The products endpoint as it exists in `app/api/products.py`, at HTTP
level: it always answers 200 with the full catalog and never produces an
error body. -/
def productsEndpoint (queryParams : List (String × String)) : HttpResult :=
  .ok 200 (get_products queryParams)

/-- The `health_check` handler body from `app/main.py`. -/
def health_check : List (String × String) := [("status", "healthy")]

/-- `GET /health` at HTTP level: status code and body. -/
def healthEndpoint : Nat × List (String × String) := (200, health_check)

/-- State-passing embedding of one execution of the products endpoint: the
only module-level mutable binding is `_PRODUCTS_DATABASE`, the handler
reads it and never assigns it, so a request maps the store to the response
together with the unchanged store. -/
def get_products_step (database : List Product) (_queryParams : List (String × String)) :
    ProductListResponse × List Product :=
  ({ products := database, total_count := database.length }, database)

/-- Modelled from the spec: the filter criteria value object of §3 — the
four optional, independently combinable query parameters of the planned
filtering exercise (no implementation exists under the source tree; only
the skipped test stubs and the endpoint docstring reference it).  Price
bounds are integer cents. -/
structure FilterCriteria where
  min_price : Option Int
  max_price : Option Int
  category : Option String
  keyword : Option String
deriving DecidableEq, Repr

/-- The characters of `s` folded to lower case (case-insensitive matching
is specified for the keyword criterion). -/
def toLowerChars (s : String) : List Char := s.data.map Char.toLower

/-- `containsSub needle hay` decides whether `needle` occurs as a
contiguous substring of `hay`. -/
def containsSub (needle : List Char) : List Char → Bool
  | [] => needle.isPrefixOf []
  | a :: rest => needle.isPrefixOf (a :: rest) || containsSub needle rest

/-- Modelled from the spec: keyword criterion of §4.2 — case-insensitive
substring match against name OR description. -/
def keywordMatches (kw : String) (p : Product) : Bool :=
  containsSub (toLowerChars kw) (toLowerChars p.product_name) ||
    containsSub (toLowerChars kw) (toLowerChars p.product_description)

/-- Modelled from the spec: the per-record predicate of §4.2 — logical AND
across all active criteria; an absent criterion imposes no constraint;
both price bounds inclusive; category match exact and case-sensitive. -/
def matchesCriteria (c : FilterCriteria) (p : Product) : Bool :=
  (match c.min_price with
    | none => true
    | some m => decide (m ≤ p.product_price_usd)) &&
  (match c.max_price with
    | none => true
    | some m => decide (p.product_price_usd ≤ m)) &&
  (match c.category with
    | none => true
    | some cat => p.product_category == cat) &&
  (match c.keyword with
    | none => true
    | some kw => keywordMatches kw p)

/-- Modelled from the spec: the Filter Engine of §4.2 — a single linear
pass over the catalog in original order keeping the records that match
every active criterion. -/
def filterProducts (catalog : List Product) (c : FilterCriteria) : List Product :=
  catalog.filter (matchesCriteria c)

/-- Outcome of the Request Validator: criteria proceed to filtering, or a
structured failure. -/
inductive ValidationResult where
  | valid
  | failure (err : ErrorResponse)
deriving DecidableEq, Repr

/-- The failure body for an out-of-range category, per §4.1: kind
`invalid_category`, allowed values in the details (the spec fixes no
message text for this kind; the message below is representative). -/
def invalidCategoryError : ErrorResponse :=
  { error_code := "invalid_category"
    error_message := "Category must be one of the allowed values"
    error_details := [("allowed_categories", .strList validProductCategories)] }

/-- The failure body for an inverted price range, per §4.1: kind
`invalid_price_range`, the fixed message, and details echoing both
offending bounds. -/
def invalidPriceRangeError (mn mx : Int) : ErrorResponse :=
  { error_code := "invalid_price_range"
    error_message := "Minimum price cannot exceed maximum price"
    error_details := [("min_price", .num mn), ("max_price", .num mx)] }

/-- Modelled from the spec: the Request Validator of §4.1, checks in the
order the spec lists them — price range first, then category, otherwise
valid; a pure function. -/
def validate (c : FilterCriteria) : ValidationResult :=
  match c.min_price, c.max_price with
  | some mn, some mx =>
    if mx < mn then .failure (invalidPriceRangeError mn mx)
    else match c.category with
      | some cat =>
        if cat ∈ validProductCategories then .valid
        else .failure invalidCategoryError
      | none => .valid
  | _, _ =>
    match c.category with
    | some cat =>
      if validProductCategories.contains cat then .valid
      else .failure invalidCategoryError
    | none => .valid

/-- Modelled from the spec: the Catalog Endpoint of §4.3 — validator
first; on failure a 400 with the failure payload and no filtering; on
success the Filter Engine output plus its count with a 200. -/
def specCatalogEndpoint (catalog : List Product) (c : FilterCriteria) : HttpResult :=
  match validate c with
  | .valid =>
    let matched := filterProducts catalog c
    .ok 200 { products := matched, total_count := matched.length }
  | .failure err => .error 400 err

/-- The spec-side reading of one record satisfying every supplied
criterion, stated at the `Prop` level with the substring relation of the
library: used to check the Filter Engine against the spec sentence rather
than against its own code. -/
def SatisfiesCriteria (c : FilterCriteria) (p : Product) : Prop :=
  (∀ m, c.min_price = some m → m ≤ p.product_price_usd) ∧
  (∀ m, c.max_price = some m → p.product_price_usd ≤ m) ∧
  (∀ cat, c.category = some cat → p.product_category = cat) ∧
  (∀ kw, c.keyword = some kw →
    toLowerChars kw <:+: toLowerChars p.product_name ∨
      toLowerChars kw <:+: toLowerChars p.product_description)

theorem containsSub_eq_true_iff (needle hay : List Char) :
    containsSub needle hay = true ↔ needle <:+: hay := by
  induction hay with
  | nil =>
    simp [containsSub, List.isPrefixOf_iff_prefix, List.prefix_nil, List.infix_nil]
  | cons a rest ih =>
    simp [containsSub, List.isPrefixOf_iff_prefix, ih, List.infix_cons_iff]

theorem keywordMatches_eq_true_iff (kw : String) (p : Product) :
    keywordMatches kw p = true ↔
      toLowerChars kw <:+: toLowerChars p.product_name ∨
        toLowerChars kw <:+: toLowerChars p.product_description := by
  simp [keywordMatches, containsSub_eq_true_iff]

theorem matchesCriteria_eq_true_iff (c : FilterCriteria) (p : Product) :
    matchesCriteria c p = true ↔ SatisfiesCriteria c p := by
  obtain ⟨mn, mx, cat, kw⟩ := c
  simp only [matchesCriteria, SatisfiesCriteria, Bool.and_eq_true]
  cases mn <;> cases mx <;> cases cat <;> cases kw <;>
    simp [keywordMatches_eq_true_iff, beq_iff_eq, and_assoc]

theorem satisfies_keyword_only_iff (kw : String) (p : Product) :
    SatisfiesCriteria ⟨none, none, none, some kw⟩ p ↔
      toLowerChars kw <:+: toLowerChars p.product_name ∨
        toLowerChars kw <:+: toLowerChars p.product_description := by
  simp [SatisfiesCriteria]

/-- C1: for every catalog and every set of optional criteria, the Filter
Engine returns exactly the records satisfying every provided criterion
(logical AND; an absent criterion imposes no constraint): a record is in
the result iff it is in the catalog and passes all active filters.  The
Filter Engine is modelled from the spec (the source leaves it as the
workshop exercise). -/
theorem filterProducts_mem_iff (catalog : List Product) (c : FilterCriteria) (p : Product) :
    p ∈ filterProducts catalog c ↔ p ∈ catalog ∧ SatisfiesCriteria c p := by
  rw [filterProducts, List.mem_filter, matchesCriteria_eq_true_iff]

/-- C2: whenever both price bounds are supplied with `min_price >
max_price`, the catalog endpoint answers 400 with error code
`invalid_price_range`, the fixed message, and details echoing both
offending bounds; the validator short-circuits, so no filtering output
appears in the response.  Validator and endpoint are modelled from the
spec. -/
theorem specCatalogEndpoint_invalid_price_range (catalog : List Product)
    (mn mx : Int) (cat kw : Option String) (h : mx < mn) :
    specCatalogEndpoint catalog ⟨some mn, some mx, cat, kw⟩ =
      .error 400 { error_code := "invalid_price_range",
                   error_message := "Minimum price cannot exceed maximum price",
                   error_details := [("min_price", .num mn), ("max_price", .num mx)] } := by
  simp [specCatalogEndpoint, validate, invalidPriceRangeError, h]

theorem specCatalogEndpoint_invalid_price_range_witness :
    (5000 : Int) < 10000 ∧
      specCatalogEndpoint _PRODUCTS_DATABASE ⟨some 10000, some 5000, none, none⟩ =
        .error 400 { error_code := "invalid_price_range",
                     error_message := "Minimum price cannot exceed maximum price",
                     error_details := [("min_price", .num 10000), ("max_price", .num 5000)] } :=
  ⟨by decide,
    specCatalogEndpoint_invalid_price_range _PRODUCTS_DATABASE 10000 5000 none none (by decide)⟩

/-- C3: a request with no filter parameters returns the full catalog
unchanged — exactly 30 records with IDs 1..30 in catalog order — and
`total_count = 30`.  This is the behaviour of the actual `get_products`
handler in the source. -/
theorem get_products_no_params_full_catalog :
    get_products [] = { products := _PRODUCTS_DATABASE, total_count := 30 } ∧
    _PRODUCTS_DATABASE.length = 30 ∧
    _PRODUCTS_DATABASE.map Product.product_id =
      [1, 2, 3, 4, 5, 6, 7, 8, 9, 10, 11, 12, 13, 14, 15,
       16, 17, 18, 19, 20, 21, 22, 23, 24, 25, 26, 27, 28, 29, 30] :=
  ⟨rfl, rfl, by decide⟩

/-- C4: a record matches the keyword criterion iff the keyword occurs as a
case-insensitive substring of its name or of its description; concretely,
the query keyword "wireless" (lower case) returns the records with IDs 1,
4 and 8, among them record 1 whose name carries "Wireless" with a capital
letter.  Keyword matching is modelled from the spec. -/
theorem keyword_filter_spec :
    (∀ (catalog : List Product) (kw : String) (p : Product),
      p ∈ filterProducts catalog ⟨none, none, none, some kw⟩ ↔
        p ∈ catalog ∧
          (toLowerChars kw <:+: toLowerChars p.product_name ∨
            toLowerChars kw <:+: toLowerChars p.product_description)) ∧
    (filterProducts _PRODUCTS_DATABASE ⟨none, none, none, some "wireless"⟩).map
        Product.product_id = [1, 4, 8] ∧
    containsSub "Wireless".data "Wireless Bluetooth Mouse".data = true := by
  refine ⟨?_, by decide, by decide⟩
  intro catalog kw p
  rw [filterProducts, List.mem_filter, matchesCriteria_eq_true_iff,
    satisfies_keyword_only_iff]

/-- C5: the single criterion `category = "electronics"` selects exactly the
eight catalog records with IDs 1..8 and no others, and the catalog
endpoint answers 200 with those records and count 8.  The Filter Engine is
modelled from the spec; the catalog records are the seed data of the
source. -/
theorem category_electronics_exact :
    (filterProducts _PRODUCTS_DATABASE ⟨none, none, some "electronics", none⟩).map
        Product.product_id = [1, 2, 3, 4, 5, 6, 7, 8] ∧
    (∀ p ∈ _PRODUCTS_DATABASE,
      p.product_category = "electronics" ↔ p.product_id ∈ [1, 2, 3, 4, 5, 6, 7, 8]) ∧
    specCatalogEndpoint _PRODUCTS_DATABASE ⟨none, none, some "electronics", none⟩ =
      .ok 200 { products :=
                  filterProducts _PRODUCTS_DATABASE ⟨none, none, some "electronics", none⟩,
                total_count := 8 } :=
  ⟨by decide, by decide, by decide⟩

/-- C6, counterexample to the claim as stated: a request whose category is
outside the enumerated set does NOT always fail with `invalid_category` —
when the price bounds are simultaneously inverted, the validator's
price-range check (listed first in the spec) wins, so the request with
`min_price = 100.00`, `max_price = 50.00`, `category = "furniture"` fails
with `invalid_price_range` instead. -/
theorem invalid_category_shadowed_by_price_range :
    "furniture" ∉ validProductCategories ∧
    specCatalogEndpoint _PRODUCTS_DATABASE ⟨some 10000, some 5000, some "furniture", none⟩ =
      .error 400 { error_code := "invalid_price_range",
                   error_message := "Minimum price cannot exceed maximum price",
                   error_details := [("min_price", .num 10000), ("max_price", .num 5000)] } ∧
    "invalid_price_range" ≠ "invalid_category" := by
  exact ⟨by decide, by decide, by decide⟩

/-- C6, amended: whenever a category outside the enumerated set is
supplied and the price-range check does not itself fail (the bounds are
not both present and inverted), validation fails with kind
`invalid_category` and the details list the allowed category values, and
the endpoint answers 400 with that payload without filtering.  Validator
and endpoint are modelled from the spec. -/
theorem invalid_category_rejected (c : FilterCriteria) (cat : String)
    (hcat : c.category = some cat) (hmem : cat ∉ validProductCategories)
    (hrange : ∀ mn mx, c.min_price = some mn → c.max_price = some mx → mn ≤ mx) :
    specCatalogEndpoint _PRODUCTS_DATABASE c = .error 400 invalidCategoryError ∧
    invalidCategoryError.error_code = "invalid_category" ∧
    ("allowed_categories", DetailValue.strList validProductCategories) ∈
      invalidCategoryError.error_details := by
  refine ⟨?_, rfl, by simp [invalidCategoryError]⟩
  obtain ⟨mn, mx, catOpt, kwOpt⟩ := c
  cases hcat
  cases mn with
  | none => simp [specCatalogEndpoint, validate, hmem]
  | some mn =>
    cases mx with
    | none => simp [specCatalogEndpoint, validate, hmem]
    | some mx =>
      have hle : mn ≤ mx := hrange mn mx rfl rfl
      simp [specCatalogEndpoint, validate, not_lt.mpr hle, hmem]

theorem invalid_category_rejected_witness :
    (⟨none, none, some "food", none⟩ : FilterCriteria).category = some "food" ∧
    "food" ∉ validProductCategories ∧
    (specCatalogEndpoint _PRODUCTS_DATABASE ⟨none, none, some "food", none⟩ =
        .error 400 invalidCategoryError ∧
      invalidCategoryError.error_code = "invalid_category" ∧
      ("allowed_categories", DetailValue.strList validProductCategories) ∈
        invalidCategoryError.error_details) :=
  ⟨rfl, by decide,
    invalid_category_rejected ⟨none, none, some "food", none⟩ "food" rfl (by decide)
      (fun mn mx h _ => Option.noConfusion h)⟩

/-- C7: for every catalog and criteria, the Filter Engine's output is a
subsequence of the catalog, so any two records that both appear in the
result stand in the same relative order as in the full catalog and nothing
is re-sorted.  The Filter Engine is modelled from the spec. -/
theorem filterProducts_order_preserving (catalog : List Product) (c : FilterCriteria) :
    (filterProducts catalog c).Sublist catalog :=
  List.filter_sublist catalog

/-- C8: the products operation is deterministic over the immutable
catalog — running the handler twice in sequence with identical query
parameters yields identical responses, the store after each request is the
store before it, and that store is the fixed 30-record sequence.  Stated
over the state-passing embedding of the actual handler. -/
theorem get_products_step_deterministic (q₁ q₂ : List (String × String)) (h : q₁ = q₂) :
    (get_products_step _PRODUCTS_DATABASE q₁).1 =
      (get_products_step (get_products_step _PRODUCTS_DATABASE q₁).2 q₂).1 ∧
    (get_products_step _PRODUCTS_DATABASE q₁).2 = _PRODUCTS_DATABASE ∧
    (get_products_step (get_products_step _PRODUCTS_DATABASE q₁).2 q₂).2 = _PRODUCTS_DATABASE ∧
    _PRODUCTS_DATABASE.length = 30 := by
  subst h
  exact ⟨rfl, rfl, rfl, rfl⟩

theorem get_products_step_deterministic_witness :
    ([("keyword", "wireless")] : List (String × String)) = [("keyword", "wireless")] ∧
    ((get_products_step _PRODUCTS_DATABASE [("keyword", "wireless")]).1 =
        (get_products_step (get_products_step _PRODUCTS_DATABASE [("keyword", "wireless")]).2
          [("keyword", "wireless")]).1 ∧
      (get_products_step _PRODUCTS_DATABASE [("keyword", "wireless")]).2 = _PRODUCTS_DATABASE ∧
      (get_products_step (get_products_step _PRODUCTS_DATABASE [("keyword", "wireless")]).2
          [("keyword", "wireless")]).2 = _PRODUCTS_DATABASE ∧
      _PRODUCTS_DATABASE.length = 30) :=
  ⟨rfl, get_products_step_deterministic _ _ rfl⟩

/-- C9: the health endpoint takes no parameters and answers 200 with body
exactly one pair, status mapped to healthy, as in the `health_check`
handler of the source. -/
theorem healthEndpoint_ok :
    healthEndpoint = (200, [("status", "healthy")]) ∧
    health_check = [("status", "healthy")] :=
  ⟨rfl, rfl⟩

/-- C10: the actual products handler declares no query parameters and does
no validation or filtering — whatever query pairs arrive, it answers 200
with the complete 30-record catalog, `total_count` equal to the length of
the returned list, and never an error body. -/
theorem productsEndpoint_ignores_query (q : List (String × String)) :
    productsEndpoint q = .ok 200 { products := _PRODUCTS_DATABASE, total_count := 30 } ∧
    (get_products q).total_count = (get_products q).products.length ∧
    (get_products q).products.length = 30 :=
  ⟨rfl, rfl, rfl⟩

end CatalogApi
